import Mathlib

/-
Verification development for the Android ImGui rendering backend
(src/platform/android/imgui_impl_android.cpp).

The backend's global mutable variables (g_EglDisplay, g_EglSurface,
g_EglContext, g_Window, g_Initialized, the GL object handles and the
statics inside ImGui_ImplAndroid_NewFrame) are gathered into an explicit
BackendState record; every entry point becomes a pure state-passing
function.  Outcomes of EGL/GL library calls that the backend merely
branches on (eglGetDisplay, eglInitialize, shader compile status, ...)
are inputs, supplied through environment records.  GL geometry that the
source holds in single-precision floats is modelled at the integer
precision the code casts it to before use (scissor arithmetic), or as
exact rationals (times, scale factors).  The GL calls issued by
ImGui_ImplAndroid_RenderDrawData are modelled as an explicit trace
(List GlCall) together with their effect on the ambient GPU state.
-/

/-- EGL and ANativeWindow handles modelled as bound/unbound, GL object
handles as naturals (GLuint, 0 = none), plus the function-local statics of
ImGui_ImplAndroid_NewFrame (lastWidth, lastHeight, displayScale, g_Time),
which are process-global in the source and are never reset by init or
shutdown. -/
structure BackendState where
  eglDisplay : Bool
  eglSurface : Bool
  eglContext : Bool
  window : Bool
  initialized : Bool
  fontTexture : Nat
  shaderHandle : Nat
  vertHandle : Nat
  fragHandle : Nat
  attribLocationTex : Int
  attribLocationProjMtx : Int
  attribLocationVtxPos : Int
  attribLocationVtxUV : Int
  attribLocationVtxColor : Int
  vboHandle : Nat
  elementsHandle : Nat
  fontsTexID : Nat
  gTime : ℚ
  lastWidth : Int
  lastHeight : Int
  displayScale : ℚ

/-- Process state at startup: all handles unbound, all statics zeroed
(the C statics are zero-initialized). -/
def freshState : BackendState where
  eglDisplay := false
  eglSurface := false
  eglContext := false
  window := false
  initialized := false
  fontTexture := 0
  shaderHandle := 0
  vertHandle := 0
  fragHandle := 0
  attribLocationTex := 0
  attribLocationProjMtx := 0
  attribLocationVtxPos := 0
  attribLocationVtxUV := 0
  attribLocationVtxColor := 0
  vboHandle := 0
  elementsHandle := 0
  fontsTexID := 0
  gTime := 0
  lastWidth := 0
  lastHeight := 0
  displayScale := 1

/-- Result of CheckShader / CheckProgram: the status it returns and
whether it emitted the diagnostic log (it logs only when the status is
GL_FALSE and the reported log length exceeds 1). -/
structure CheckResult where
  ok : Bool
  logged : Bool

/-- CheckShader (imgui_impl_android.cpp, lines 62-79): queries
GL_COMPILE_STATUS and GL_INFO_LOG_LENGTH; on GL_FALSE logs the info log
when its length exceeds 1 and returns false, otherwise returns true. -/
def CheckShader (compileStatus : Bool) (logLength : Int) : CheckResult :=
  if compileStatus = false then
    { ok := false, logged := logLength > 1 }
  else
    { ok := true, logged := false }

/-- CheckProgram (lines 81-98): same shape as CheckShader but for
GL_LINK_STATUS on a program object. -/
def CheckProgram (linkStatus : Bool) (logLength : Int) : CheckResult :=
  if linkStatus = false then
    { ok := false, logged := logLength > 1 }
  else
    { ok := true, logged := false }

/-- Outcomes of the GL object-creation calls inside CreateDeviceObjects:
the handles glCreateShader / glCreateProgram / glGenBuffers hand back,
the compile/link statuses and log lengths the driver reports, and the
attribute/uniform locations resolved by name. -/
structure ShaderEnv where
  newVertHandle : Nat
  newFragHandle : Nat
  newShaderHandle : Nat
  vertexCompileOk : Bool
  fragmentCompileOk : Bool
  linkOk : Bool
  vertexLogLength : Int
  fragmentLogLength : Int
  programLogLength : Int
  locTex : Int
  locProjMtx : Int
  locVtxPos : Int
  locVtxUV : Int
  locVtxColor : Int
  newVboHandle : Nat
  newElementsHandle : Nat

/-- CreateDeviceObjects (lines 101-131): creates and compiles the vertex
and fragment shaders, links the program, resolves locations, generates
the two buffers.  The CheckShader / CheckProgram results are computed
and then discarded by the source; the function returns true
unconditionally. -/
def CreateDeviceObjects (env : ShaderEnv) (s : BackendState) : Bool × BackendState :=
  let s := { s with vertHandle := env.newVertHandle }
  let _vertCheck := CheckShader env.vertexCompileOk env.vertexLogLength
  let s := { s with fragHandle := env.newFragHandle }
  let _fragCheck := CheckShader env.fragmentCompileOk env.fragmentLogLength
  let s := { s with shaderHandle := env.newShaderHandle }
  let _progCheck := CheckProgram env.linkOk env.programLogLength
  let s := { s with
    attribLocationTex := env.locTex
    attribLocationProjMtx := env.locProjMtx
    attribLocationVtxPos := env.locVtxPos
    attribLocationVtxUV := env.locVtxUV
    attribLocationVtxColor := env.locVtxColor }
  let s := { s with vboHandle := env.newVboHandle, elementsHandle := env.newElementsHandle }
  (true, s)

/-- CreateFontsTexture (lines 134-159): uploads the font atlas as a 2D
texture (saving and restoring the previously bound texture), stores the
new handle in g_FontTexture and in io.Fonts->TexID, and returns true. -/
def CreateFontsTexture (newFontTexture : Nat) (s : BackendState) : Bool × BackendState :=
  (true, { s with fontTexture := newFontTexture, fontsTexID := newFontTexture })

/-- Outcomes of the window queries and EGL library calls made by
ImGui_ImplAndroid_Init, plus the GL-side creation outcomes it forwards
to CreateDeviceObjects / CreateFontsTexture. -/
structure InitEnv where
  windowNull : Bool
  windowWidth : Int
  windowHeight : Int
  getDisplayOk : Bool
  eglInitializeOk : Bool
  chooseConfigOk : Bool
  createSurfaceOk : Bool
  createContextOk : Bool
  makeCurrentOk : Bool
  shaderEnv : ShaderEnv
  newFontTexture : Nat

/-- ImGui_ImplAndroid_Init (lines 161-275).  g_Window is assigned before
the null check; each EGL handle is assigned the call's result before the
result is tested; every failure path returns false immediately without
releasing anything acquired earlier. -/
def ImGui_ImplAndroid_Init (env : InitEnv) (s : BackendState) : Bool × BackendState :=
  let s := { s with window := env.windowNull = false }
  if env.windowNull then (false, s)
  else if env.windowWidth ≤ 0 ∨ env.windowHeight ≤ 0 then (false, s)
  else
    let s := { s with eglDisplay := env.getDisplayOk }
    if env.getDisplayOk = false then (false, s)
    else if env.eglInitializeOk = false then (false, s)
    else if env.chooseConfigOk = false then (false, s)
    else
      let s := { s with eglSurface := env.createSurfaceOk }
      if env.createSurfaceOk = false then (false, s)
      else
        let s := { s with eglContext := env.createContextOk }
        if env.createContextOk = false then (false, s)
        else if env.makeCurrentOk = false then (false, s)
        else
          let s := (CreateDeviceObjects env.shaderEnv s).2
          let s := (CreateFontsTexture env.newFontTexture s).2
          (true, { s with initialized := true })

/-- GL/EGL release calls that ImGui_ImplAndroid_Shutdown can issue,
recorded so that "releases nothing" is provable. -/
inductive ReleaseCall where
  | deleteBuffers (h : Nat)
  | detachShader (prog sh : Nat)
  | deleteShader (h : Nat)
  | deleteProgram (h : Nat)
  | deleteTextures (h : Nat)
  | eglMakeCurrentNull
  | eglDestroyContext
  | eglDestroySurface
  | eglTerminate

/-- ImGui_ImplAndroid_Shutdown (lines 277-326).  Each release is guarded
by the handle being non-zero/bound, each guard reads the value from
before the function zeroed it, io.Fonts->TexID is cleared only inside
the font-texture branch, and at the end every handle is reset. -/
def ImGui_ImplAndroid_Shutdown (s : BackendState) : BackendState × List ReleaseCall :=
  let glCalls :=
    (if s.vboHandle ≠ 0 then [ReleaseCall.deleteBuffers s.vboHandle] else [])
    ++ (if s.elementsHandle ≠ 0 then [ReleaseCall.deleteBuffers s.elementsHandle] else [])
    ++ (if s.shaderHandle ≠ 0 ∧ s.vertHandle ≠ 0 then
          [ReleaseCall.detachShader s.shaderHandle s.vertHandle] else [])
    ++ (if s.vertHandle ≠ 0 then [ReleaseCall.deleteShader s.vertHandle] else [])
    ++ (if s.shaderHandle ≠ 0 ∧ s.fragHandle ≠ 0 then
          [ReleaseCall.detachShader s.shaderHandle s.fragHandle] else [])
    ++ (if s.fragHandle ≠ 0 then [ReleaseCall.deleteShader s.fragHandle] else [])
    ++ (if s.shaderHandle ≠ 0 then [ReleaseCall.deleteProgram s.shaderHandle] else [])
    ++ (if s.fontTexture ≠ 0 then [ReleaseCall.deleteTextures s.fontTexture] else [])
  let eglCalls :=
    if s.eglDisplay then
      [ReleaseCall.eglMakeCurrentNull]
      ++ (if s.eglContext then [ReleaseCall.eglDestroyContext] else [])
      ++ (if s.eglSurface then [ReleaseCall.eglDestroySurface] else [])
      ++ [ReleaseCall.eglTerminate]
    else []
  let s := { s with
    vboHandle := 0
    elementsHandle := 0
    vertHandle := 0
    fragHandle := 0
    shaderHandle := 0
    fontsTexID := if s.fontTexture ≠ 0 then 0 else s.fontsTexID
    fontTexture := 0
    eglDisplay := false
    eglContext := false
    eglSurface := false
    window := false
    initialized := false }
  (s, glCalls ++ eglCalls)

/-- Display-scale selection inside ImGui_ImplAndroid_NewFrame (lines
371-378): strictly-greater-than tests against the fixed thresholds 1080
and 720, on either dimension. -/
def displayScaleOf (w h : Int) : ℚ :=
  if w > 1080 ∨ h > 1080 then 2
  else if w > 720 ∨ h > 720 then 3/2
  else 1

/-- Spec-side reading of the same tier selection with
inclusive-lower-bound boundary semantics (the boundary value of a
threshold belongs to the higher tier).  Stated only to compare against
displayScaleOf, which is translated from the source. -/
def displayScaleSpecInclusive (w h : Int) : ℚ :=
  if w ≥ 1080 ∨ h ≥ 1080 then 2
  else if w ≥ 720 ∨ h ≥ 720 then 3/2
  else 1

/-- ImGui_ImplAndroid_NewFrame (lines 328-396).  Inputs: success of the
eglMakeCurrent call, the window dimensions ANativeWindow reports, the
monotonic-clock reading ImGui::GetTime() returns, whether
io.Fonts->IsBuilt(), and the texture handle a rebuild would produce.
Returns the updated state and the io.DeltaTime value written (none on
early return).  The unused density computation of the source is dead
code and is not modelled. -/
def ImGui_ImplAndroid_NewFrame (s : BackendState) (makeCurrentOk : Bool)
    (windowWidth windowHeight : Int) (currentTime : ℚ)
    (fontsBuilt : Bool) (newFontTexture : Nat) : BackendState × Option ℚ :=
  if s.initialized = false then (s, none)
  else if makeCurrentOk = false then (s, none)
  else
    let orientationChanged := (s.lastWidth != windowWidth) || (s.lastHeight != windowHeight)
    let s := { s with lastWidth := windowWidth, lastHeight := windowHeight }
    let s := if orientationChanged then
        { s with displayScale := displayScaleOf windowWidth windowHeight }
      else s
    let deltaTime := if s.gTime > 0 then currentTime - s.gTime else (1 : ℚ) / 60
    let s := { s with gTime := currentTime }
    let s := if fontsBuilt = false then (CreateFontsTexture newFontTexture s).2 else s
    (s, some deltaTime)

/-- Ambient GPU state fields captured by the backup block of
ImGui_ImplAndroid_RenderDrawData (lines 414-432).  Enums and handles are
GLint/GLuint values, modelled as integers; the viewport and scissor box
are (x, y, w, h). -/
structure GpuState where
  activeTexture : Int
  program : Int
  texture2D : Int
  arrayBuffer : Int
  elementArrayBuffer : Int
  vertexArray : Int
  blendSrcRgb : Int
  blendDstRgb : Int
  blendSrcAlpha : Int
  blendDstAlpha : Int
  blendEqRgb : Int
  blendEqAlpha : Int
  viewportX : Int
  viewportY : Int
  viewportW : Int
  viewportH : Int
  scissorX : Int
  scissorY : Int
  scissorW : Int
  scissorH : Int
  enableBlend : Bool
  enableCullFace : Bool
  enableDepthTest : Bool
  enableScissorTest : Bool

/-- GL capabilities toggled by the renderer. -/
inductive Cap where
  | blend
  | cullFace
  | depthTest
  | scissorTest
  deriving DecidableEq

/-- GL calls issued by ImGui_ImplAndroid_RenderDrawData, in trace form.
Payloads that no claim observes and that floats would be needed for
(clear color, projection matrix values) are left out of the
constructor. -/
inductive GlCall where
  | activeTexture (u : Int)
  | useProgram (p : Int)
  | bindTexture2D (t : Int)
  | bindArrayBuffer (b : Int)
  | bindElementArrayBuffer (b : Int)
  | bufferDataArray (size : Nat)
  | bufferDataElement (size : Nat)
  | blendEquation (m : Int)
  | blendEquationSeparate (rgb alpha : Int)
  | blendFuncSeparate (srcRgb dstRgb srcAlpha dstAlpha : Int)
  | enable (c : Cap)
  | disable (c : Cap)
  | viewport (x y w h : Int)
  | clearColorBlack
  | clearColorBuffer
  | scissor (x y w h : Int)
  | uniform1i (loc : Int) (v : Int)
  | uniformMatrix4fv (loc : Int)
  | enableVertexAttribArray (loc : Int)
  | vertexAttribPointer (loc : Int)
  | drawElements (count : Nat) (idxOffset : Nat)
  | userCallback
  | swapBuffers
  deriving DecidableEq

def glTEXTURE0 : Int := 33984
def glFUNC_ADD : Int := 32774
def glSRC_ALPHA : Int := 770
def glONE_MINUS_SRC_ALPHA : Int := 771
def glONE : Int := 1

/-- Effect of one GL call on the tracked ambient state.  Calls that do
not touch any tracked field (buffer uploads, uniforms, draws, clears,
attribute setup, the EGL swap) leave it unchanged. -/
def applyGlCall (g : GpuState) : GlCall → GpuState
  | .activeTexture u => { g with activeTexture := u }
  | .useProgram p => { g with program := p }
  | .bindTexture2D t => { g with texture2D := t }
  | .bindArrayBuffer b => { g with arrayBuffer := b }
  | .bindElementArrayBuffer b => { g with elementArrayBuffer := b }
  | .blendEquation m => { g with blendEqRgb := m, blendEqAlpha := m }
  | .blendEquationSeparate rgb alpha => { g with blendEqRgb := rgb, blendEqAlpha := alpha }
  | .blendFuncSeparate srcRgb dstRgb srcAlpha dstAlpha =>
      { g with blendSrcRgb := srcRgb, blendDstRgb := dstRgb,
               blendSrcAlpha := srcAlpha, blendDstAlpha := dstAlpha }
  | .enable .blend => { g with enableBlend := true }
  | .enable .cullFace => { g with enableCullFace := true }
  | .enable .depthTest => { g with enableDepthTest := true }
  | .enable .scissorTest => { g with enableScissorTest := true }
  | .disable .blend => { g with enableBlend := false }
  | .disable .cullFace => { g with enableCullFace := false }
  | .disable .depthTest => { g with enableDepthTest := false }
  | .disable .scissorTest => { g with enableScissorTest := false }
  | .viewport x y w h => { g with viewportX := x, viewportY := y, viewportW := w, viewportH := h }
  | .scissor x y w h => { g with scissorX := x, scissorY := y, scissorW := w, scissorH := h }
  | _ => g

/-- State after running a trace of GL calls. -/
def runTrace (g : GpuState) (calls : List GlCall) : GpuState :=
  calls.foldl applyGlCall g

/-- Draw command as consumed by the renderer.  The ClipRect floats are
modelled at the integer precision the source casts them to (the casts at
lines 519-522 happen before any comparison). -/
structure ImDrawCmd where
  hasUserCallback : Bool
  clipX : Int
  clipY : Int
  clipZ : Int
  clipW : Int
  textureId : Int
  elemCount : Nat

structure ImDrawList where
  vtxSize : Nat
  idxSize : Nat
  cmdBuffer : List ImDrawCmd

structure ImDrawData where
  displaySizeX : Int
  displaySizeY : Int
  cmdLists : List ImDrawList

/-- Scissor rectangle computation for one draw command (lines 519-528):
raw values from the clip rectangle with the Y origin flipped, then each
component clamped to 0 when negative. -/
def scissorRect (fbHeight : Int) (c : ImDrawCmd) : Int × Int × Int × Int :=
  let sx := c.clipX
  let sy := fbHeight - c.clipW
  let sw := c.clipZ - c.clipX
  let sh := c.clipW - c.clipY
  let sx := if sx < 0 then 0 else sx
  let sy := if sy < 0 then 0 else sy
  let sw := if sw < 0 then 0 else sw
  let sh := if sh < 0 then 0 else sh
  (sx, sy, sw, sh)

/-- Calls issued for one draw command (lines 509-537): a user callback
replaces the draw, otherwise scissor, texture bind and an indexed draw
at the running index offset. -/
def cmdCalls (fbHeight : Int) (c : ImDrawCmd) (idxOffset : Nat) : List GlCall :=
  if c.hasUserCallback then [GlCall.userCallback]
  else
    let r := scissorRect fbHeight c
    [GlCall.scissor r.1 r.2.1 r.2.2.1 r.2.2.2,
     GlCall.bindTexture2D c.textureId,
     GlCall.drawElements c.elemCount idxOffset]

/-- Command loop over one list's command buffer; idx_offset advances by
ElemCount for every command, callbacks included (line 536 sits outside
the else branch). -/
def cmdLoop (fbHeight : Int) : List ImDrawCmd → Nat → List GlCall
  | [], _ => []
  | c :: rest, idxOffset =>
      cmdCalls fbHeight c idxOffset ++ cmdLoop fbHeight rest (idxOffset + c.elemCount)

/-- Calls issued for one ImDrawList (lines 489-537): full buffer uploads,
attribute setup, then the command loop starting at offset 0. -/
def drawListCalls (st : BackendState) (fbHeight : Int) (dl : ImDrawList) : List GlCall :=
  [GlCall.bindArrayBuffer (st.vboHandle : Int),
   GlCall.bufferDataArray dl.vtxSize,
   GlCall.bindElementArrayBuffer (st.elementsHandle : Int),
   GlCall.bufferDataElement dl.idxSize,
   GlCall.enableVertexAttribArray st.attribLocationVtxPos,
   GlCall.enableVertexAttribArray st.attribLocationVtxUV,
   GlCall.enableVertexAttribArray st.attribLocationVtxColor,
   GlCall.vertexAttribPointer st.attribLocationVtxPos,
   GlCall.vertexAttribPointer st.attribLocationVtxUV,
   GlCall.vertexAttribPointer st.attribLocationVtxColor]
  ++ cmdLoop fbHeight dl.cmdBuffer 0

/-- Render-state setup (lines 415 and 434-484): the glActiveTexture
switch performed inside the backup block, blending/cull/depth/scissor
configuration, viewport, clear, program bind and uniforms. -/
def setupCalls (st : BackendState) (fbWidth fbHeight : Int) : List GlCall :=
  [GlCall.activeTexture glTEXTURE0,
   GlCall.enable Cap.blend,
   GlCall.blendEquation glFUNC_ADD,
   GlCall.blendFuncSeparate glSRC_ALPHA glONE_MINUS_SRC_ALPHA glONE glONE_MINUS_SRC_ALPHA,
   GlCall.disable Cap.cullFace,
   GlCall.disable Cap.depthTest,
   GlCall.enable Cap.scissorTest,
   GlCall.viewport 0 0 fbWidth fbHeight,
   GlCall.clearColorBlack,
   GlCall.clearColorBuffer,
   GlCall.useProgram (st.shaderHandle : Int),
   GlCall.uniform1i st.attribLocationTex 0,
   GlCall.uniformMatrix4fv st.attribLocationProjMtx]

/-- Restore block (lines 540-552), exactly the calls the source issues:
program, texture, buffer bindings, blend equation/function, the four
capability flags, viewport and scissor box from the snapshot.  The
source reads last_active_texture and last_vertex_array into the snapshot
but issues no call restoring either. -/
def restoreCalls (snap : GpuState) : List GlCall :=
  [GlCall.useProgram snap.program,
   GlCall.bindTexture2D snap.texture2D,
   GlCall.bindArrayBuffer snap.arrayBuffer,
   GlCall.bindElementArrayBuffer snap.elementArrayBuffer,
   GlCall.blendEquationSeparate snap.blendEqRgb snap.blendEqAlpha,
   GlCall.blendFuncSeparate snap.blendSrcRgb snap.blendDstRgb snap.blendSrcAlpha snap.blendDstAlpha,
   (if snap.enableBlend then GlCall.enable Cap.blend else GlCall.disable Cap.blend),
   (if snap.enableCullFace then GlCall.enable Cap.cullFace else GlCall.disable Cap.cullFace),
   (if snap.enableDepthTest then GlCall.enable Cap.depthTest else GlCall.disable Cap.depthTest),
   (if snap.enableScissorTest then GlCall.enable Cap.scissorTest else GlCall.disable Cap.scissorTest),
   GlCall.viewport snap.viewportX snap.viewportY snap.viewportW snap.viewportH,
   GlCall.scissor snap.scissorX snap.scissorY snap.scissorW snap.scissorH]

/-- Guarded body of ImGui_ImplAndroid_RenderDrawData (lines 407-555):
the minimized-window size check followed by setup, per-list rendering,
ambient-state restore and the buffer swap.  The snapshot restored at the
end equals g: every glGetIntegerv/glIsEnabled in the backup block reads
a field the renderer has not yet modified (last_active_texture is read
before the glActiveTexture switch, and the switch touches no other
field). -/
def renderBody (st : BackendState) (dd : ImDrawData) (g : GpuState) : List GlCall :=
  let fbWidth := dd.displaySizeX
  let fbHeight := dd.displaySizeY
  if fbWidth ≤ 0 ∨ fbHeight ≤ 0 then []
  else
    setupCalls st fbWidth fbHeight
    ++ (dd.cmdLists.map (drawListCalls st fbHeight)).flatten
    ++ restoreCalls g
    ++ [GlCall.swapBuffers]

/-- ImGui_ImplAndroid_RenderDrawData (lines 398-556) as the trace of
GL/EGL calls it issues against ambient state g: the early returns on an
uninitialized backend, a null draw-data pointer or a failed
eglMakeCurrent produce the empty trace, otherwise renderBody runs. -/
def ImGui_ImplAndroid_RenderDrawData (st : BackendState) (drawData : Option ImDrawData)
    (makeCurrentOk : Bool) (g : GpuState) : List GlCall :=
  match drawData with
  | none => []
  | some dd =>
    if st.initialized = false then []
    else if makeCurrentOk = false then []
    else renderBody st dd g

/-- Normalized pointer fields of ImGuiIO written by the input
translator: io.MousePos and io.MouseDown[0]. -/
structure IoState where
  mousePosX : ℚ
  mousePosY : ℚ
  mouseDown0 : Bool

/-- Raw AInputEvent at the boundary the handler reads: a motion event
carries the full action word and the coordinates AMotionEvent_getX/getY
return at the action's pointer index; any non-motion event (key events
included) is the other constructor. -/
inductive AInputEvent where
  | motion (action : Nat) (x y : ℚ)
  | key (keyCode : Nat)

/-- ImGui_ImplAndroid_HandleInputEvent (lines 558-605): returns false
when not initialized; for motion events masks the action with
AMOTION_EVENT_ACTION_MASK (0xff), updates MouseDown[0]/MousePos for
DOWN(0)/POINTER_DOWN(5), MOVE(2), UP(1)/POINTER_UP(6)/CANCEL(3), leaves
state unchanged for any other masked action, and returns true; returns
false for every non-motion event. -/
def ImGui_ImplAndroid_HandleInputEvent (initialized : Bool) (io : IoState)
    (ev : AInputEvent) : Bool × IoState :=
  if initialized = false then (false, io)
  else
    match ev with
    | .motion action x y =>
        let actionMasked := action &&& 255
        let io :=
          if actionMasked = 0 ∨ actionMasked = 5 then
            { io with mouseDown0 := true, mousePosX := x, mousePosY := y }
          else if actionMasked = 2 then
            { io with mousePosX := x, mousePosY := y }
          else if actionMasked = 1 ∨ actionMasked = 6 ∨ actionMasked = 3 then
            { io with mouseDown0 := false }
          else io
        (true, io)
    | .key _ => (false, io)

/-- Proposition that every owned handle of the backend is null/zero:
display, context, surface, window, font texture, shader stages, program,
vertex buffer, index buffer. -/
def allHandlesNull (s : BackendState) : Prop :=
  s.eglDisplay = false ∧ s.eglContext = false ∧ s.eglSurface = false ∧
  s.window = false ∧ s.fontTexture = 0 ∧ s.vertHandle = 0 ∧ s.fragHandle = 0 ∧
  s.shaderHandle = 0 ∧ s.vboHandle = 0 ∧ s.elementsHandle = 0

/-- Fully-successful outcomes for the GL object creation inside
CreateDeviceObjects, used by the concrete evaluations. -/
def shaderEnvOk : ShaderEnv where
  newVertHandle := 2
  newFragHandle := 3
  newShaderHandle := 7
  vertexCompileOk := true
  fragmentCompileOk := true
  linkOk := true
  vertexLogLength := 0
  fragmentLogLength := 0
  programLogLength := 0
  locTex := 0
  locProjMtx := 1
  locVtxPos := 0
  locVtxUV := 1
  locVtxColor := 2
  newVboHandle := 4
  newElementsHandle := 5

/-- GL creation outcomes where the vertex shader fails to compile with a
non-empty diagnostic log. -/
def shaderEnvVertexFail : ShaderEnv :=
  { shaderEnvOk with vertexCompileOk := false, vertexLogLength := 5 }

/-- Init environment for a fully successful initialization on a valid
1080x1920 window. -/
def envOk : InitEnv where
  windowNull := false
  windowWidth := 1080
  windowHeight := 1920
  getDisplayOk := true
  eglInitializeOk := true
  chooseConfigOk := true
  createSurfaceOk := true
  createContextOk := true
  makeCurrentOk := true
  shaderEnv := shaderEnvOk
  newFontTexture := 9

/-- Init environment identical to envOk except that the final
eglMakeCurrent call fails. -/
def envMakeCurrentFail : InitEnv := { envOk with makeCurrentOk := false }

/-- Backend state after a fully successful initialization from the
fresh process state. -/
def stInit : BackendState := (ImGui_ImplAndroid_Init envOk freshState).2

/-- Draw data with a positive framebuffer size and zero command lists. -/
def ddEmpty : ImDrawData where
  displaySizeX := 1080
  displaySizeY := 1920
  cmdLists := []

/-- Concrete ambient GPU state whose active texture unit is GL_TEXTURE1
(33985), used to observe what render leaves behind. -/
def g1 : GpuState where
  activeTexture := 33985
  program := 11
  texture2D := 12
  arrayBuffer := 13
  elementArrayBuffer := 14
  vertexArray := 15
  blendSrcRgb := 770
  blendDstRgb := 771
  blendSrcAlpha := 1
  blendDstAlpha := 771
  blendEqRgb := 32774
  blendEqAlpha := 32774
  viewportX := 0
  viewportY := 0
  viewportW := 500
  viewportH := 600
  scissorX := 1
  scissorY := 2
  scissorW := 3
  scissorH := 4
  enableBlend := false
  enableCullFace := true
  enableDepthTest := true
  enableScissorTest := false

/-- Draw command with no user callback whose clip rectangle makes all
four computed scissor components negative when the framebuffer height
is 3: raw x = -5, raw y = 3-10 = -7, raw w = -9-(-5) = -4,
raw h = 10-20 = -10. -/
def c6cmd : ImDrawCmd where
  hasUserCallback := false
  clipX := -5
  clipY := 20
  clipZ := -9
  clipW := 10
  textureId := 1
  elemCount := 6

/-- Backend state as if a previous session had already run one frame at
clock reading 5 (used to exercise the frame-delta rule). -/
def st8 : BackendState := { freshState with initialized := true, gTime := 5 }

/-- First frame of the re-initialization counterexample trace: NewFrame
at clock reading 5 on the freshly initialized backend. -/
def n8first : BackendState × Option ℚ :=
  ImGui_ImplAndroid_NewFrame stInit true 1080 1920 5 true 9

/-- Second initialization of the counterexample trace, from the state
left by shutting down after the first frame. -/
def r8 : Bool × BackendState :=
  ImGui_ImplAndroid_Init envOk (ImGui_ImplAndroid_Shutdown n8first.1).1

/-- First NewFrame after the second successful init, at clock reading 7. -/
def n8second : BackendState × Option ℚ :=
  ImGui_ImplAndroid_NewFrame r8.2 true 1080 1920 7 true 9

/-- Concrete io state for the input-handler evaluations. -/
def io0 : IoState where
  mousePosX := 50
  mousePosY := 60
  mouseDown0 := false

theorem clampZero_eq_max (x : Int) : (if x < 0 then 0 else x) = max 0 x := by
  rw [max_def]
  split <;> split <;> omega

theorem scissorRect_eq_max (fbHeight : Int) (c : ImDrawCmd) :
    scissorRect fbHeight c =
      (max 0 c.clipX, max 0 (fbHeight - c.clipW),
       max 0 (c.clipZ - c.clipX), max 0 (c.clipW - c.clipY)) := by
  unfold scissorRect
  simp only []
  rw [clampZero_eq_max, clampZero_eq_max, clampZero_eq_max, clampZero_eq_max]

theorem render_some_init (st : BackendState) (dd : ImDrawData) (g : GpuState)
    (hinit : st.initialized = true) :
    ImGui_ImplAndroid_RenderDrawData st (some dd) true g = renderBody st dd g := by
  unfold ImGui_ImplAndroid_RenderDrawData
  rw [hinit]
  simp

theorem renderBody_of_empty (st : BackendState) (g : GpuState) (dd : ImDrawData)
    (hempty : dd.cmdLists = []) (hw : 0 < dd.displaySizeX) (hh : 0 < dd.displaySizeY) :
    renderBody st dd g =
      setupCalls st dd.displaySizeX dd.displaySizeY
        ++ (restoreCalls g ++ [GlCall.swapBuffers]) := by
  unfold renderBody
  rw [hempty, if_neg (by omega)]
  simp

/-- C1: evaluating render at a concrete failing input.  With the ambient
active texture unit at GL_TEXTURE1 (33985), a render call that passes
its early-return checks leaves the active texture unit at GL_TEXTURE0
(33984) after it returns: the captured last_active_texture is never
restored by the restore block, so this snapshot field does not regain
its pre-call value as the claim requires. -/
theorem C1_render_clobbers_active_texture :
    g1.activeTexture = 33985 ∧
    (runTrace g1 (ImGui_ImplAndroid_RenderDrawData stInit (some ddEmpty) true g1)).activeTexture
      = 33984 :=
  ⟨rfl, rfl⟩

/-- C2: evaluating init at a concrete failing input.  Starting from the
unbound fresh state with a valid 1080x1920 window, when every EGL step
succeeds except the final eglMakeCurrent, init returns failure yet
leaves the display connection, the presentation surface and the GPU
context all bound — contradicting the claim that a failed init leaves
those three handles null/unbound. -/
theorem C2_failed_init_leaves_partial_state :
    (ImGui_ImplAndroid_Init envMakeCurrentFail freshState).1 = false ∧
    (ImGui_ImplAndroid_Init envMakeCurrentFail freshState).2.eglDisplay = true ∧
    (ImGui_ImplAndroid_Init envMakeCurrentFail freshState).2.eglSurface = true ∧
    (ImGui_ImplAndroid_Init envMakeCurrentFail freshState).2.eglContext = true :=
  ⟨rfl, rfl, rfl, rfl⟩

/-- C3 counterexample: with a vertex shader whose compile status is
GL_FALSE and whose diagnostic log is non-empty, CheckShader reports the
failure (and logs it), yet CreateDeviceObjects still returns success —
refuting the claim that buildPipeline returns failure whenever a shader
fails to compile. -/
theorem C3_cex_compile_failure_reported_as_success :
    (CheckShader shaderEnvVertexFail.vertexCompileOk shaderEnvVertexFail.vertexLogLength).ok
      = false ∧
    (CheckShader shaderEnvVertexFail.vertexCompileOk shaderEnvVertexFail.vertexLogLength).logged
      = true ∧
    (CreateDeviceObjects shaderEnvVertexFail freshState).1 = true :=
  ⟨rfl, rfl, rfl⟩

/-- C3 (amended): CreateDeviceObjects returns success unconditionally —
even when a shader fails to compile or the program fails to link — and
the process is never aborted; CheckShader/CheckProgram detect exactly
the GL_FALSE statuses and emit the implementation-provided diagnostic
log exactly when the status is GL_FALSE and the log is non-empty, but
their results are discarded by CreateDeviceObjects. -/
theorem C3_buildPipeline_always_succeeds_and_logs (env : ShaderEnv) (s : BackendState)
    (status : Bool) (logLength : Int) :
    (CreateDeviceObjects env s).1 = true ∧
    ((CheckShader status logLength).ok = false ↔ status = false) ∧
    ((CheckShader status logLength).logged = true ↔ (status = false ∧ logLength > 1)) ∧
    ((CheckProgram status logLength).ok = false ↔ status = false) ∧
    ((CheckProgram status logLength).logged = true ↔ (status = false ∧ logLength > 1)) := by
  refine ⟨rfl, ?_, ?_, ?_, ?_⟩ <;> cases status <;> simp [CheckShader, CheckProgram]

/-- C4: after shutdown every owned handle (display, context, surface,
window, font texture, shader stages, program, vertex buffer, index
buffer) is null/zero, and running shutdown again on that already-unbound
state issues no release call and returns the state unchanged — shutdown
is idempotent. -/
theorem C4_shutdown_idempotent (s : BackendState) :
    allHandlesNull (ImGui_ImplAndroid_Shutdown s).1 ∧
    ImGui_ImplAndroid_Shutdown (ImGui_ImplAndroid_Shutdown s).1
      = ((ImGui_ImplAndroid_Shutdown s).1, []) :=
  ⟨⟨rfl, rfl, rfl, rfl, rfl, rfl, rfl, rfl, rfl, rfl⟩, rfl⟩

/-- C5: when render runs initialized with non-null draw data of positive
framebuffer dimensions but zero command lists, its trace contains no
indexed draw call and still contains the buffer swap that presents the
surface. -/
theorem C5_empty_batches_no_draw_still_presented (st : BackendState) (g : GpuState)
    (dd : ImDrawData) (hinit : st.initialized = true) (hempty : dd.cmdLists = [])
    (hw : 0 < dd.displaySizeX) (hh : 0 < dd.displaySizeY) :
    (∀ n off : Nat,
      GlCall.drawElements n off ∉ ImGui_ImplAndroid_RenderDrawData st (some dd) true g) ∧
    GlCall.swapBuffers ∈ ImGui_ImplAndroid_RenderDrawData st (some dd) true g := by
  rw [render_some_init st dd g hinit, renderBody_of_empty st g dd hempty hw hh]
  constructor
  · intro n off
    cases hb : g.enableBlend <;> cases hc : g.enableCullFace <;>
      cases hd : g.enableDepthTest <;> cases hs : g.enableScissorTest <;>
      simp [setupCalls, restoreCalls, hb, hc, hd, hs]
  · simp

/-- C5 witness: the property instantiated at the concrete initialized
state, an arbitrary ambient GPU state and the 1080x1920 empty draw
data. -/
theorem C5_witness :
    stInit.initialized = true ∧ ddEmpty.cmdLists = [] ∧
    0 < ddEmpty.displaySizeX ∧ 0 < ddEmpty.displaySizeY ∧
    ((∀ n off : Nat,
        GlCall.drawElements n off ∉ ImGui_ImplAndroid_RenderDrawData stInit (some ddEmpty) true g1) ∧
      GlCall.swapBuffers ∈ ImGui_ImplAndroid_RenderDrawData stInit (some ddEmpty) true g1) :=
  ⟨rfl, rfl, by norm_num [ddEmpty], by norm_num [ddEmpty],
    C5_empty_batches_no_draw_still_presented stInit g1 ddEmpty rfl rfl
      (by norm_num [ddEmpty]) (by norm_num [ddEmpty])⟩

/-- C6: for a draw command without user callback, the scissor call that
render issues carries exactly max 0 of each raw computed component, so a
component whose raw value is negative is clamped to 0 and every emitted
component is non-negative — negative/degenerate clip rectangles become
zero-area scissors, never unclipped draws. -/
theorem C6_scissor_components_clamped (fbHeight : Int) (c : ImDrawCmd) (idxOffset : Nat)
    (hcb : c.hasUserCallback = false) :
    cmdCalls fbHeight c idxOffset =
      [GlCall.scissor (max 0 c.clipX) (max 0 (fbHeight - c.clipW))
         (max 0 (c.clipZ - c.clipX)) (max 0 (c.clipW - c.clipY)),
       GlCall.bindTexture2D c.textureId,
       GlCall.drawElements c.elemCount idxOffset] ∧
    (c.clipX < 0 → (scissorRect fbHeight c).1 = 0) ∧
    (fbHeight - c.clipW < 0 → (scissorRect fbHeight c).2.1 = 0) ∧
    (c.clipZ - c.clipX < 0 → (scissorRect fbHeight c).2.2.1 = 0) ∧
    (c.clipW - c.clipY < 0 → (scissorRect fbHeight c).2.2.2 = 0) ∧
    0 ≤ (scissorRect fbHeight c).1 ∧ 0 ≤ (scissorRect fbHeight c).2.1 ∧
    0 ≤ (scissorRect fbHeight c).2.2.1 ∧ 0 ≤ (scissorRect fbHeight c).2.2.2 := by
  rw [scissorRect_eq_max]
  refine ⟨?_, ?_, ?_, ?_, ?_, le_max_left 0 _, le_max_left 0 _, le_max_left 0 _, le_max_left 0 _⟩
  · unfold cmdCalls
    rw [if_neg (by simp [hcb]), scissorRect_eq_max]
  · intro h
    simp [max_eq_left (le_of_lt h)]
  · intro h
    simp [max_eq_left (le_of_lt h)]
  · intro h
    simp [max_eq_left (le_of_lt h)]
  · intro h
    simp [max_eq_left (le_of_lt h)]

/-- C6 witness: the clamping property at a concrete command whose four
raw scissor components are all negative: the emitted scissor call is the
zero-area rectangle. -/
theorem C6_witness :
    c6cmd.hasUserCallback = false ∧
    cmdCalls 3 c6cmd 0 =
      [GlCall.scissor 0 0 0 0, GlCall.bindTexture2D 1, GlCall.drawElements 6 0] := by
  refine ⟨rfl, ?_⟩
  have h := (C6_scissor_components_clamped 3 c6cmd 0 rfl).1
  rw [h]
  norm_num [c6cmd]

/-- C7 counterexample: at the threshold boundary (1080, 1080) the source
selects the medium tier (scale 3/2) because it uses strictly-greater
comparisons, while the inclusive-lower-bound reading of the claim
assigns the boundary value to the large tier (scale 2); the two
disagree. -/
theorem C7_cex_boundary_not_inclusive :
    displayScaleOf 1080 1080 = 3/2 ∧
    displayScaleSpecInclusive 1080 1080 = 2 ∧
    displayScaleOf 1080 1080 ≠ displayScaleSpecInclusive 1080 1080 := by
  refine ⟨by norm_num [displayScaleOf], by norm_num [displayScaleSpecInclusive], ?_⟩
  norm_num [displayScaleOf, displayScaleSpecInclusive]

/-- C7 (amended): the scale tier applied by NewFrame on a dimension
change is the pure function displayScaleOf of (width, height); the
sample points hold (1200 wide is large/2.0 for any height, 800 wide is
medium/1.5 for heights up to 1080, 400 wide is small/1.0 for heights up
to 720); boundary values are assigned consistently, but with
strictly-greater (exclusive) threshold semantics: 1080 and 720
themselves fall in the lower tier, and 1081/721 are the least values of
the large/medium tiers. -/
theorem C7_scale_tier_selection (s : BackendState) (wi hi hh : Int) (t : ℚ)
    (fb : Bool) (nft : Nat) :
    (s.initialized = true → (s.lastWidth ≠ wi ∨ s.lastHeight ≠ hi) →
      ((ImGui_ImplAndroid_NewFrame s true wi hi t fb nft).1).displayScale
        = displayScaleOf wi hi) ∧
    displayScaleOf 1200 hh = 2 ∧
    (hh ≤ 1080 → displayScaleOf 800 hh = 3/2) ∧
    (hh ≤ 720 → displayScaleOf 400 hh = 1) ∧
    displayScaleOf 1080 1080 = 3/2 ∧ displayScaleOf 1081 0 = 2 ∧
    displayScaleOf 720 720 = 1 ∧ displayScaleOf 721 0 = 3/2 := by
  refine ⟨?_, by norm_num [displayScaleOf], ?_, ?_,
    by norm_num [displayScaleOf], by norm_num [displayScaleOf],
    by norm_num [displayScaleOf], by norm_num [displayScaleOf]⟩
  · intro hinit hchange
    have hb : ((s.lastWidth != wi) || (s.lastHeight != hi)) = true := by
      simp only [Bool.or_eq_true, bne_iff_ne]
      exact hchange
    cases fb <;> simp [ImGui_ImplAndroid_NewFrame, hinit, hb, CreateFontsTexture]
  · intro h
    rw [displayScaleOf]
    rw [if_neg (by omega), if_pos (by omega)]
  · intro h
    rw [displayScaleOf]
    rw [if_neg (by omega), if_neg (by omega)]

/-- C7 witness: the tier rule instantiated on the initialized state (a
change from 0x0 to 800x600) and the sample-point hypotheses discharged
at height 600. -/
theorem C7_witness :
    stInit.initialized = true ∧ (stInit.lastWidth ≠ 800 ∨ stInit.lastHeight ≠ 600) ∧
    ((ImGui_ImplAndroid_NewFrame stInit true 800 600 1 true 0).1).displayScale
      = displayScaleOf 800 600 ∧
    (600 : Int) ≤ 1080 ∧ displayScaleOf 800 600 = 3/2 := by
  have h := C7_scale_tier_selection stInit 800 600 600 1 true 0
  exact ⟨rfl, Or.inl (by decide), h.1 rfl (Or.inl (by decide)),
    by norm_num, h.2.2.1 (by norm_num)⟩

theorem newFrame_snd (s : BackendState) (wi hi : Int) (t : ℚ) (fb : Bool) (nft : Nat)
    (hinit : s.initialized = true) :
    (ImGui_ImplAndroid_NewFrame s true wi hi t fb nft).2
      = some (if s.gTime > 0 then t - s.gTime else (1 : ℚ)/60) := by
  unfold ImGui_ImplAndroid_NewFrame
  rw [hinit]
  cases hb : ((s.lastWidth != wi) || (s.lastHeight != hi)) <;> cases hf : fb <;>
    simp [hb, hf, CreateFontsTexture]

/-- C8 counterexample: a concrete trace init, newFrame(t=5), shutdown,
init, newFrame(t=7).  Both inits succeed; the first newFrame of the
process reports the 1/60 fallback, but the very first newFrame after the
second successful init reports 7 - 5 = 2 seconds — not the fallback —
because the stored previous timestamp is process-global and is never
reset by shutdown or init. -/
theorem C8_cex_reinit_delta_not_fallback :
    (ImGui_ImplAndroid_Init envOk freshState).1 = true ∧
    n8first.2 = some (1/60) ∧
    r8.1 = true ∧
    n8second.2 = some 2 ∧
    n8second.2 ≠ some (1/60) := by
  have h0 : stInit.gTime = 0 := rfl
  have h5 : r8.2.gTime = 5 := rfl
  have e1 : n8first.2 = some (if stInit.gTime > 0 then 5 - stInit.gTime else (1 : ℚ)/60) :=
    newFrame_snd stInit 1080 1920 5 true 9 rfl
  have e2 : n8second.2 = some (if r8.2.gTime > 0 then 7 - r8.2.gTime else (1 : ℚ)/60) :=
    newFrame_snd r8.2 1080 1920 7 true 9 rfl
  rw [h0] at e1
  rw [h5] at e2
  rw [if_neg (by norm_num)] at e1
  rw [if_pos (by norm_num)] at e2
  refine ⟨rfl, e1, rfl, ?_, ?_⟩
  · rw [e2]
    norm_num
  · rw [e2]
    norm_num

/-- C8 (amended): the frame delta reported by NewFrame equals the fixed
1/60 fallback exactly when the stored previous timestamp is not
positive — which holds on the very first newFrame of the process — and
equals current_time - previous_time whenever the stored timestamp is
positive; the stored timestamp survives both init and shutdown
untouched, so the first newFrame after a re-initialization does not use
the fallback. -/
theorem C8_delta_time_rule (s : BackendState) (env : InitEnv) (wi hi : Int) (t : ℚ)
    (fb : Bool) (nft : Nat) :
    (s.initialized = true → s.gTime ≤ 0 →
      (ImGui_ImplAndroid_NewFrame s true wi hi t fb nft).2 = some (1/60)) ∧
    (s.initialized = true → 0 < s.gTime →
      (ImGui_ImplAndroid_NewFrame s true wi hi t fb nft).2 = some (t - s.gTime)) ∧
    (ImGui_ImplAndroid_Init env s).2.gTime = s.gTime ∧
    (ImGui_ImplAndroid_Shutdown s).1.gTime = s.gTime := by
  refine ⟨?_, ?_, ?_, rfl⟩
  · intro hinit hle
    rw [newFrame_snd s wi hi t fb nft hinit, if_neg (not_lt.mpr hle)]
  · intro hinit hpos
    rw [newFrame_snd s wi hi t fb nft hinit, if_pos hpos]
  · unfold ImGui_ImplAndroid_Init
    repeat' split
    all_goals rfl

/-- C8 witness: the delta rule at a state whose stored timestamp is 5
and a newFrame at clock reading 7: the reported delta is 2. -/
theorem C8_witness :
    st8.initialized = true ∧ (0 : ℚ) < st8.gTime ∧
    (ImGui_ImplAndroid_NewFrame st8 true 100 200 7 true 0).2 = some 2 := by
  refine ⟨rfl, by norm_num [st8, freshState], ?_⟩
  have h := (C8_delta_time_rule st8 envOk 100 200 7 true 0).2.1 rfl
    (by norm_num [st8, freshState])
  rw [h]
  norm_num [st8, freshState]

/-- C9: a pointer-down event (action DOWN or POINTER_DOWN) at (x, y)
sets the tracked pointer position to (x, y) and the primary button to
true; a subsequent pointer-up or pointer-cancel event (actions UP,
POINTER_UP, CANCEL, at any coordinates) sets the primary button to false
and leaves the pointer position unchanged at (x, y). -/
theorem C9_pointer_down_then_up (io : IoState) (x y xu yu : ℚ) :
    ((ImGui_ImplAndroid_HandleInputEvent true io (.motion 0 x y)).2
      = { mousePosX := x, mousePosY := y, mouseDown0 := true }) ∧
    ((ImGui_ImplAndroid_HandleInputEvent true io (.motion 5 x y)).2
      = { mousePosX := x, mousePosY := y, mouseDown0 := true }) ∧
    ((ImGui_ImplAndroid_HandleInputEvent true
        { mousePosX := x, mousePosY := y, mouseDown0 := true } (.motion 1 xu yu)).2
      = { mousePosX := x, mousePosY := y, mouseDown0 := false }) ∧
    ((ImGui_ImplAndroid_HandleInputEvent true
        { mousePosX := x, mousePosY := y, mouseDown0 := true } (.motion 6 xu yu)).2
      = { mousePosX := x, mousePosY := y, mouseDown0 := false }) ∧
    ((ImGui_ImplAndroid_HandleInputEvent true
        { mousePosX := x, mousePosY := y, mouseDown0 := true } (.motion 3 xu yu)).2
      = { mousePosX := x, mousePosY := y, mouseDown0 := false }) :=
  ⟨rfl, rfl, rfl, rfl, rfl⟩

/-- C10: once initialized, the handler consumes (returns true for) every
motion event — including action kinds it does not process, which leave
the io state unchanged — and returns false, with the io state unchanged,
for every non-motion event and for every event delivered while the
backend is not initialized. -/
theorem C10_consumed_iff_initialized_motion (io : IoState) (a k : Nat) (x y : ℚ) :
    ((ImGui_ImplAndroid_HandleInputEvent true io (.motion a x y)).1 = true) ∧
    (ImGui_ImplAndroid_HandleInputEvent true io (.key k) = (false, io)) ∧
    (ImGui_ImplAndroid_HandleInputEvent false io (.motion a x y) = (false, io)) ∧
    (ImGui_ImplAndroid_HandleInputEvent false io (.key k) = (false, io)) ∧
    (a &&& 255 ≠ 0 → a &&& 255 ≠ 5 → a &&& 255 ≠ 2 →
     a &&& 255 ≠ 1 → a &&& 255 ≠ 6 → a &&& 255 ≠ 3 →
      ImGui_ImplAndroid_HandleInputEvent true io (.motion a x y) = (true, io)) := by
  refine ⟨rfl, rfl, rfl, rfl, ?_⟩
  intro h0 h5 h2 h1 h6 h3
  have c1 : ¬(a &&& 255 = 0 ∨ a &&& 255 = 5) := by tauto
  have c3 : ¬(a &&& 255 = 1 ∨ a &&& 255 = 6 ∨ a &&& 255 = 3) := by tauto
  simp [ImGui_ImplAndroid_HandleInputEvent, c1, h2, c3]

/-- C10 witness: the rule instantiated at a scroll-like motion event
(action 8, masked 8, processed by no case): the handler returns true and
leaves the io state unchanged. -/
theorem C10_witness :
    (8 : Nat) &&& 255 = 8 ∧
    ImGui_ImplAndroid_HandleInputEvent true io0 (.motion 8 1 2) = (true, io0) := by
  refine ⟨by decide, ?_⟩
  exact (C10_consumed_iff_initialized_motion io0 8 0 1 2).2.2.2.2
    (by decide) (by decide) (by decide) (by decide) (by decide) (by decide)
